import Mathlib

/-!
Shallow embedding of the CineAI caching and recommendation-resolution
pipeline, translated from `server/routes/recommendations.js`,
`server/routes/movies.js` (the version with the `fetchOmdb` retry helper)
and `database/schema.sql`, together with proofs about the behaviour the
natural-language specification claims.

Modelling conventions:
* MySQL tables become Lean lists of row structures; `NOW()` becomes an
  explicit `now : Nat` argument (seconds).
* JavaScript strings are Lean `String`s (ASCII fragment; every literal in
  the routes is ASCII).  JS `parseInt` / `parseFloat` / `trim` /
  `toLowerCase` are modelled on that fragment.
* `JSON.parse` of the driver is an external library function; functions
  that call it take it as an explicit `parse : String → Option JValue`
  argument, where `none` models a parse exception.
* Fallible operations return `Option` / `Except`; a caught-and-logged
  exception becomes an explicit error branch.
-/

/-- JavaScript whitespace class (ASCII fragment of `\s`): space, tab,
newline, carriage return, vertical tab, form feed. -/
def isJsWs (c : Char) : Bool :=
  c == ' ' || c == '\t' || c == '\n' || c == '\r' ||
  c == Char.ofNat 11 || c == Char.ofNat 12

/-- Newline characters `\n` and `\r` (the class `[^\n\r]` excludes exactly
these). -/
def isNLChar (c : Char) : Bool := c == '\n' || c == '\r'

/-- Model of the JavaScript `String.prototype.trim` on a character list:
drop leading and trailing whitespace. -/
def jsTrimList (cs : List Char) : List Char :=
  ((cs.dropWhile isJsWs).reverse.dropWhile isJsWs).reverse

/-- Model of the JavaScript `String.prototype.trim`. -/
def jsTrim (s : String) : String := ⟨jsTrimList s.data⟩

/-- Lower-case a character list (ASCII model of `toLowerCase`). -/
def lowerList (cs : List Char) : List Char := cs.map Char.toLower

/-- Does the first list occur at the head of the second (element-wise)? -/
def startsWithChars : List Char → List Char → Bool
  | [], _ => true
  | _ :: _, [] => false
  | n :: ns, c :: cs => n == c && startsWithChars ns cs

/-- Does `needle` occur contiguously anywhere inside the second list?
Used to model the SQL `LIKE CONCAT(ANY, needle, ANY)` substring test. -/
def containsChars (needle : List Char) : List Char → Bool
  | [] => needle.isEmpty
  | c :: rest => startsWithChars needle (c :: rest) || containsChars needle rest

/-- Model of MySQL `title LIKE CONCAT(percent, needle, percent)` under the
default case-insensitive collation: case-folded substring containment.
(`LIKE` metacharacters inside the needle are not modelled; no claim
depends on them.) -/
def likeContains (hay needle : String) : Bool :=
  containsChars (lowerList needle.data) (lowerList hay.data)

/-- JSON values, the result type of a successful `JSON.parse`. -/
inductive JValue where
  | null
  | bool (b : Bool)
  | num (q : Rat)
  | str (s : String)
  | arr (xs : List JValue)
  | obj (fields : List (String × JValue))

/-- Property access `v.name` on a parsed JSON value: a field lookup on an
object, `undefined` (here `none`) on everything else. -/
def getField : JValue → String → Option JValue
  | .obj fields, name => (fields.find? (fun f => f.1 == name)).map (fun f => f.2)
  | _, _ => none

/-- JavaScript truthiness of a JSON value: `null`, `false`, `0` and the
empty string are falsy; every object and array (including `[]`) is truthy. -/
def jvTruthy : JValue → Bool
  | .null => false
  | .bool b => b
  | .num q => !(decide (q = 0))
  | .str s => !(s == "")
  | .arr _ => true
  | .obj _ => true

/-- Model of `x || d` on an optional JSON property: the property value when
present and truthy, otherwise the default. -/
def jsOrJ (o : Option JValue) (d : JValue) : JValue :=
  match o with
  | some v => if jvTruthy v then v else d
  | none => d

/-- Whether `raw.toString()` on an object or array value yields the exact
string used in the guard at recommendations.js line 44, namely
`"[object Object]"`: true for every plain object, and for an array whose
comma join collapses to that string (a one-element array around such a
value).  Joins with two or more elements contain a comma and can never be
equal to it; numbers and booleans render without brackets. -/
def objectToStringCheck : JValue → Bool
  | .obj _ => true
  | .str s => s == "[object Object]"
  | .arr [v] => objectToStringCheck v
  | _ => false

/-- The raw value read back from the `recommendations` JSON column: the
driver may hand the route a string, a Buffer (carrying its UTF-8 text), an
already-decoded object, or SQL NULL. -/
inductive RawVal where
  | rawNull
  | rawString (s : String)
  | rawBuffer (s : String)
  | rawObject (v : JValue)

/-- Defensive normalisation of a cached payload, from
recommendations.js lines 38-74: try to obtain a parsed value (strings and
Buffers go through `JSON.parse` inside a try/catch, plain objects are
nulled out by the `toString() === "[object Object]"` guard, anything else
is used as-is), then pull an array out of the value itself or its
`recommendations` / `data` fields, and as a final fallback look for a
`recommendations` array directly on the raw object.  The result is the
`recommendations` array of the cache response; every failure collapses to
the empty list, never to an exception. -/
def normalizeCachedPayload (parse : String → Option JValue) (raw : RawVal) :
    List JValue :=
  let parsed : Option JValue :=
    match raw with
    | .rawString s => parse s
    | .rawBuffer s => if s == "[object Object]" then none else parse s
    | .rawObject v => if objectToStringCheck v then none else some v
    | .rawNull => none
  let recs : List JValue :=
    match parsed with
    | none => []
    | some (.arr xs) => xs
    | some v =>
      match getField v "recommendations" with
      | some (.arr xs) => xs
      | _ =>
        match getField v "data" with
        | some (.arr xs) => xs
        | _ => []
  if recs.isEmpty then
    match raw with
    | .rawObject v =>
      match getField v "recommendations" with
      | some (.arr xs) => xs
      | _ => []
    | _ => []
  else recs

/-- One row of the `ai_recommendations_cache` table (schema.sql lines
62-71).  The auto-increment `id` plays no role in the routes and is not
modelled. -/
structure RecCacheRow where
  prompt_hash : String
  user_prompt : String
  recommendations : RawVal
  created_at : Nat
  expires_at : Nat

/-- The cache lookup of recommendations.js lines 27-30:
`SELECT * FROM ai_recommendations_cache WHERE prompt_hash = ? AND
expires_at > NOW()`. -/
def lookupRecCache (store : List RecCacheRow) (h : String) (now : Nat) :
    Option RecCacheRow :=
  store.find? (fun r => r.prompt_hash == h && decide (now < r.expires_at))

/-- The cached branch of the `/ai` route (lines 32-81): a live row is
answered from cache with its defensively normalised payload; no live row
means a miss (`none`), after which the caller generates fresh
recommendations.  The `originalPrompt` echo field of the response is not
modelled; no claim concerns it. -/
def readRecCache (parse : String → Option JValue) (store : List RecCacheRow)
    (h : String) (now : Nat) : Option (List JValue) :=
  (lookupRecCache store h now).map
    (fun r => normalizeCachedPayload parse r.recommendations)

/-- The `INSERT INTO ai_recommendations_cache ... VALUES (?, ?, ?,
DATE_ADD(NOW(), INTERVAL 24 HOUR))` of lines 106-110, against the UNIQUE
constraint on `prompt_hash`: a plain insert, which fails with a
duplicate-key error (modelled as `none`) whenever any row for the hash
already exists, expired or not. -/
def insertRecCache (store : List RecCacheRow) (row : RecCacheRow) :
    Option (List RecCacheRow) :=
  if store.any (fun r => r.prompt_hash == row.prompt_hash) then none
  else some (store ++ [row])

/-- The route-level cache write of lines 105-114: the insert runs inside
`try { ... } catch (cacheError) { console.error(...) }`, so a duplicate-key
failure leaves the table unchanged and is reported only through the
returned flag (`false`); the surrounding request still completes. -/
def putRecCache (store : List RecCacheRow) (h p : String) (payload : RawVal)
    (now : Nat) : List RecCacheRow × Bool :=
  match insertRecCache store
      { prompt_hash := h, user_prompt := p, recommendations := payload,
        created_at := now, expires_at := now + 86400 } with
  | some s => (s, true)
  | none => (store, false)

/-- The twelve columns written by `cacheMovie` into `movies_cache`
(schema.sql lines 17-35); nullable columns are `Option`s. -/
structure MovieCols where
  imdb_id : String
  title : String
  year : Option Int
  genre : Option String
  director : Option String
  actors : Option String
  plot : Option String
  poster_url : Option String
  imdb_rating : Option Rat
  runtime : Option String
  language : Option String
  country : Option String
deriving DecidableEq

/-- One stored row of `movies_cache`: the written columns plus the
`created_at TIMESTAMP DEFAULT CURRENT_TIMESTAMP` column, which only the
insert path fills. -/
structure MovieRow where
  cols : MovieCols
  created_at : Nat
deriving DecidableEq

/-- `SELECT * FROM movies_cache WHERE imdb_id = ?` (the id is UNIQUE, so
the first match is the row). -/
def findById (store : List MovieRow) (id : String) : Option MovieRow :=
  store.find? (fun r => r.cols.imdb_id == id)

/-- The `cacheMovie` helper (recommendations.js lines 652-674):
`INSERT ... ON DUPLICATE KEY UPDATE` over the UNIQUE `imdb_id` key.  A
fresh id appends a row whose `created_at` defaults to the current time; a
duplicate id overwrites the eleven non-key columns while the UPDATE list
leaves `created_at` untouched. -/
def cacheMovie (store : List MovieRow) (m : MovieCols) (now : Nat) :
    List MovieRow :=
  if store.any (fun r => r.cols.imdb_id == m.imdb_id) then
    store.map (fun r =>
      if r.cols.imdb_id == m.imdb_id then
        { cols := m, created_at := r.created_at }
      else r)
  else store ++ [{ cols := m, created_at := now }]

/-- Comparison used by `ORDER BY imdb_rating DESC LIMIT 1`: MySQL sorts
NULL ratings last in descending order. -/
def ratingGtB : Option Rat → Option Rat → Bool
  | some a, some b => decide (b < a)
  | some _, none => true
  | none, _ => false

/-- `ORDER BY imdb_rating DESC LIMIT 1` over a filtered row set: the
highest-rated row, keeping the earlier row on ties. -/
def bestByRating (rows : List MovieRow) : Option MovieRow :=
  rows.foldl
    (fun acc r =>
      match acc with
      | none => some r
      | some b =>
        if ratingGtB r.cols.imdb_rating b.cols.imdb_rating then some r
        else some b)
    none

/-- The fields of an OMDb API response object that the two
`formatMovieData` helpers read.  `Year`, `imdbRating` and `Poster` are the
strings OMDb sends; the remaining fields are `Option`s so that an absent
(JS `undefined`) property is representable. -/
structure OmdbPayload where
  imdbID : String
  Title : String
  Year : String
  Genre : Option String
  Director : Option String
  Actors : Option String
  Plot : Option String
  Poster : String
  imdbRating : String
  Runtime : Option String
  Language : Option String
  Country : Option String
  Rated : Option String
  Released : Option String
  Awards : Option String
deriving DecidableEq

/-- Value of a run of ASCII digits. -/
def digitsToNat (ds : List Char) : Nat :=
  ds.foldl (fun a c => a * 10 + (c.toNat - 48)) 0

/-- Model of JavaScript `parseInt` on the payloads this code feeds it:
skip leading whitespace, take an optional sign and then the maximal run of
leading decimal digits; no digits means `NaN`, modelled as `none`.
(The hexadecimal `0x` form never occurs in OMDb `Year` strings and is not
modelled.) -/
def jsParseInt (s : String) : Option Int :=
  let cs := s.data.dropWhile isJsWs
  let core : List Char → Option Nat := fun l =>
    let ds := l.takeWhile Char.isDigit
    if ds.isEmpty then none else some (digitsToNat ds)
  match cs with
  | '-' :: rest => (core rest).map (fun n => -(n : Int))
  | '+' :: rest => (core rest).map (fun n => (n : Int))
  | _ => (core cs).map (fun n => (n : Int))

/-- Model of JavaScript `parseFloat` on the payloads this code feeds it:
skip leading whitespace, optional sign, integer digits, optional fraction;
no digits at all means `NaN`, modelled as `none`.  (Exponent notation
never occurs in OMDb `imdbRating` strings and is not modelled.) -/
def jsParseFloat (s : String) : Option Rat :=
  let cs := s.data.dropWhile isJsWs
  let signed : Bool × List Char :=
    match cs with
    | '-' :: rest => (true, rest)
    | '+' :: rest => (false, rest)
    | _ => (false, cs)
  let intDs := signed.2.takeWhile Char.isDigit
  let rest1 := signed.2.dropWhile Char.isDigit
  let fracDs :=
    match rest1 with
    | '.' :: r2 => r2.takeWhile Char.isDigit
    | _ => []
  if intDs.isEmpty && fracDs.isEmpty then none
  else
    let v : Rat :=
      (digitsToNat intDs : Rat) + (digitsToNat fracDs : Rat) / ((10 : Rat) ^ fracDs.length)
    some (if signed.1 then -v else v)

/-- `parseInt(x) || null`: both a failed parse (`NaN`) and the number `0`
are falsy, so both collapse to `null`. -/
def intOrNull (o : Option Int) : Option Int :=
  match o with
  | some n => if n = 0 then none else some n
  | none => none

/-- `parseFloat(x) || null`: both `NaN` and `0` collapse to `null`. -/
def ratOrNull (o : Option Rat) : Option Rat :=
  match o with
  | some q => if q = 0 then none else some q
  | none => none

/-- `x || d` on an optional string property: JS replaces both an absent
property and the empty string by the default. -/
def jsOrStr (o : Option String) (d : String) : String :=
  match o with
  | some s => if s = "" then d else s
  | none => d

/-- The normalised record built by `formatMovieData` in
recommendations.js lines 631-649 (the variant with `Unknown` defaults and
the extra `rated` / `released` / `awards` fields). -/
structure FormattedMovie where
  imdb_id : String
  title : String
  year : Option Int
  genre : String
  director : String
  actors : String
  plot : String
  poster_url : Option String
  imdb_rating : Option Rat
  runtime : String
  language : String
  country : String
  rated : String
  released : String
  awards : String
deriving DecidableEq

/-- `formatMovieData` of recommendations.js lines 631-649. -/
def formatMovieData (d : OmdbPayload) : FormattedMovie :=
  { imdb_id := d.imdbID
    title := d.Title
    year := intOrNull (jsParseInt d.Year)
    genre := jsOrStr d.Genre "Unknown"
    director := jsOrStr d.Director "Unknown"
    actors := jsOrStr d.Actors "Unknown"
    plot := jsOrStr d.Plot "Plot not available"
    poster_url := if d.Poster = "N/A" then none else some d.Poster
    imdb_rating := ratOrNull (jsParseFloat d.imdbRating)
    runtime := jsOrStr d.Runtime "Unknown"
    language := jsOrStr d.Language "Unknown"
    country := jsOrStr d.Country "Unknown"
    rated := jsOrStr d.Rated "Unknown"
    released := jsOrStr d.Released "Unknown"
    awards := jsOrStr d.Awards "Unknown" }

/-- The normalised record built by `formatMovieData` in the movies router
(movies.js lines 224-239): same `year` / `rating` / `poster` coercions,
but the descriptive fields pass through without defaults. -/
structure FormattedMovieM where
  imdb_id : String
  title : String
  year : Option Int
  genre : Option String
  director : Option String
  actors : Option String
  plot : Option String
  poster_url : Option String
  imdb_rating : Option Rat
  runtime : Option String
  language : Option String
  country : Option String
deriving DecidableEq

/-- `formatMovieData` of movies.js lines 224-239. -/
def formatMovieDataMovies (d : OmdbPayload) : FormattedMovieM :=
  { imdb_id := d.imdbID
    title := d.Title
    year := intOrNull (jsParseInt d.Year)
    genre := d.Genre
    director := d.Director
    actors := d.Actors
    plot := d.Plot
    poster_url := if d.Poster = "N/A" then none else some d.Poster
    imdb_rating := ratOrNull (jsParseFloat d.imdbRating)
    runtime := d.Runtime
    language := d.Language
    country := d.Country }

/-- The column tuple `cacheMovie` binds from a record produced by the
recommendations-router `formatMovieData`. -/
def toCols (m : FormattedMovie) : MovieCols :=
  { imdb_id := m.imdb_id, title := m.title, year := m.year,
    genre := some m.genre, director := some m.director,
    actors := some m.actors, plot := some m.plot,
    poster_url := m.poster_url, imdb_rating := m.imdb_rating,
    runtime := some m.runtime, language := some m.language,
    country := some m.country }

/-- Outcome of one HTTPS attempt against OMDb: a decoded response body, or
a transport-level failure (timeout, connection error, non-2xx status
thrown by axios). -/
inductive TransportOutcome where
  | ok (d : OmdbPayload)
  | fail

/-- Observable trace of one logical provider fetch: how many attempts were
issued, which backoff delays (ms) were slept, and the final outcome. -/
structure FetchTrace where
  attempts : Nat
  delays : List Nat
  result : Except Unit OmdbPayload

/-- The retry loop body of `fetchOmdb` (movies.js lines 7-20), recursing
over the remaining attempt budget; `oracle n` is the transport outcome of
the n-th attempt.  A response body is returned immediately (OMDb reports
"not found" inside a 200 body, so it arrives here as `ok`); a transport
failure on the last attempt is rethrown, earlier failures sleep
`500 * attempt` ms and retry. -/
def fetchOmdbGo (oracle : Nat → TransportOutcome) (attempt : Nat) :
    Nat → FetchTrace
  | 0 => { attempts := 0, delays := [], result := .error () }
  | r + 1 =>
    match oracle attempt with
    | .ok d => { attempts := 1, delays := [], result := .ok d }
    | .fail =>
      if r = 0 then { attempts := 1, delays := [], result := .error () }
      else
        let t := fetchOmdbGo oracle (attempt + 1) r
        { attempts := t.attempts + 1, delays := 500 * attempt :: t.delays,
          result := t.result }

/-- `fetchOmdb(params, retries = 3, timeout = 5000)` of movies.js
lines 7-20. -/
def fetchOmdb (oracle : Nat → TransportOutcome) (retries : Nat) : FetchTrace :=
  fetchOmdbGo oracle 1 retries

/-- The direct `axios.get` against OMDb inside
`getMovieDetailsForRecommendations` (recommendations.js lines 524-532):
one attempt, no retry, no backoff; a throw propagates to the per-candidate
catch. -/
def omdbDirectFetch (oracle : Nat → TransportOutcome) : FetchTrace :=
  match oracle 1 with
  | .ok d => { attempts := 1, delays := [], result := .ok d }
  | .fail => { attempts := 1, delays := [], result := .error () }

/-- One `matchAll` step shared by the regular expressions whose tail is
`\s*([^\n\r]+)`: greedily skip whitespace (newlines included) and capture
the maximal run of non-newline characters from the first non-whitespace
character on.  When only whitespace remains, the greedy star backtracks by
one character at a time, so the capture degenerates to the single last
character that is not a newline (if any); such captures are all-whitespace
and are discarded later by the length filter, but the scan must still
consume them.  Returns the capture and the remaining input after it. -/
def wsCapture (cs : List Char) : Option (List Char × List Char) :=
  let rem := cs.dropWhile isJsWs
  match rem with
  | [] =>
    match (cs.reverse.dropWhile isNLChar).head? with
    | some c => some ([c], [])
    | none => none
  | _ :: _ =>
    some (rem.takeWhile (fun c => !(isNLChar c)),
          rem.dropWhile (fun c => !(isNLChar c)))

/-- Captures of the quoted-title pattern (a quote, one or more non-quote
characters, a quote) over the whole text, in order, resuming after each
closing quote; a quote immediately followed by another quote fails as an
opener and the scan restarts at the second quote.  The first argument is
recursion fuel, always instantiated with more than the text length, so the
scan runs to the end of the input. -/
def scanQuotedF : Nat → List Char → List (List Char)
  | 0, _ => []
  | _, [] => []
  | fuel + 1, c :: rest =>
    if c == '"' then
      let content := rest.takeWhile (fun x => x != '"')
      match rest.dropWhile (fun x => x != '"') with
      | [] => []
      | _ :: rest2 =>
        if content.isEmpty then scanQuotedF fuel rest
        else content :: scanQuotedF fuel rest2
    else scanQuotedF fuel rest

/-- Captures of the numbered-list pattern (one or more digits, a dot, then
the shared whitespace-and-capture tail) over the whole text.  When the dot
is missing after a digit run the engine restarts after the run (every
start inside the run fails the same way); when the tail yields nothing the
remaining input is all whitespace and holds no further digits. -/
def scanNumberedF : Nat → List Char → List (List Char)
  | 0, _ => []
  | _, [] => []
  | fuel + 1, c :: rest =>
    if c.isDigit then
      match rest.dropWhile Char.isDigit with
      | '.' :: r2 =>
        match wsCapture r2 with
        | some (cap, r3) => cap :: scanNumberedF fuel r3
        | none => []
      | r1 => scanNumberedF fuel r1
    else scanNumberedF fuel rest

/-- Captures of the bullet pattern (a hyphen, asterisk or bullet
character, then the shared tail) over the whole text. -/
def scanBulletF : Nat → List Char → List (List Char)
  | 0, _ => []
  | _, [] => []
  | fuel + 1, c :: rest =>
    if c == '-' || c == '*' || c == '•' then
      match wsCapture rest with
      | some (cap, r3) => cap :: scanBulletF fuel r3
      | none => []
    else scanBulletF fuel rest

/-- Case-insensitive literal match of `tag` (given lower-cased) at the
head of the input. -/
def lowerHeadMatches : List Char → List Char → Bool
  | [], _ => true
  | _ :: _, [] => false
  | p :: ps, c :: cs => p == c.toLower && lowerHeadMatches ps cs

/-- Captures of the tagged patterns (the case-insensitive literal
`Title:` or `Movie:`, then the shared tail) over the whole text, resuming
after each capture. -/
def scanTaggedF (tag : List Char) : Nat → List Char → List (List Char)
  | 0, _ => []
  | _, [] => []
  | fuel + 1, c :: rest =>
    if lowerHeadMatches tag (c :: rest) then
      match wsCapture ((c :: rest).drop tag.length) with
      | some (cap, r3) => cap :: scanTaggedF tag fuel r3
      | none => scanTaggedF tag fuel rest
    else scanTaggedF tag fuel rest

/-- Character class `[a-zA-Z\s]` of the title-with-year pattern. -/
def isAlphaWs (c : Char) : Bool := c.isAlpha || isJsWs c

/-- Word characters for the `\b` boundary test: letters, digits,
underscore. -/
def isWordCh (c : Char) : Bool := c.isAlphanum || c == '_'

/-- Captures of the `\b[A-Z][a-zA-Z\s]+\(\d{4}\)` pattern over the whole
text: at a word boundary, an upper-case letter, then a non-empty run of
letters and whitespace, then a parenthesised four-digit year; the capture
is the whole match.  `prev` is the character before the current position,
for the boundary test. -/
def scanTitleYearF : Nat → Option Char → List Char → List (List Char)
  | 0, _, _ => []
  | _, _, [] => []
  | fuel + 1, prev, c :: rest =>
    let boundary : Bool :=
      match prev with
      | some p => !(isWordCh p)
      | none => true
    if boundary && c.isUpper then
      match rest.takeWhile isAlphaWs, rest.dropWhile isAlphaWs with
      | run@(_ :: _), '(' :: d1 :: d2 :: d3 :: d4 :: ')' :: r2 =>
        if d1.isDigit && d2.isDigit && d3.isDigit && d4.isDigit then
          (c :: run ++ '(' :: d1 :: d2 :: d3 :: d4 :: [')']) ::
            scanTitleYearF fuel (some ')') r2
        else scanTitleYearF fuel (some c) rest
      | _, _ => scanTitleYearF fuel (some c) rest
    else scanTitleYearF fuel (some c) rest

/-- `title.replace(SLASH ^ DIGITS DOT WS* SLASH, EMPTY)`: drop a leading
run of digits followed by a dot and any whitespace; leave the input
unchanged when that anchor does not match. -/
def stripNumDot (cs : List Char) : List Char :=
  match cs with
  | c :: _ =>
    if c.isDigit then
      match cs.dropWhile Char.isDigit with
      | '.' :: r2 => r2.dropWhile isJsWs
      | _ => cs
    else cs
  | [] => []

/-- Remove the first parenthesised four-digit year (no global flag on this
replace: only the first occurrence goes, the remainder is kept verbatim). -/
def stripYearParenF : Nat → List Char → List Char
  | 0, cs => cs
  | _, [] => []
  | fuel + 1, c :: rest =>
    if c == '(' then
      match rest with
      | d1 :: d2 :: d3 :: d4 :: ')' :: r2 =>
        if d1.isDigit && d2.isDigit && d3.isDigit && d4.isDigit then r2
        else c :: stripYearParenF fuel rest
      | _ => c :: stripYearParenF fuel rest
    else c :: stripYearParenF fuel rest

/-- Remove one leading case-insensitive `Title:` or `Movie:` tag and the
whitespace after it (the regex is anchored at the string start, so despite
the global flag at most one replacement happens). -/
def stripLeadTag (cs : List Char) : List Char :=
  if lowerHeadMatches "title:".data cs then (cs.drop 6).dropWhile isJsWs
  else if lowerHeadMatches "movie:".data cs then (cs.drop 6).dropWhile isJsWs
  else cs

/-- Character class kept by the clean-up replace: word characters,
whitespace, and the punctuation the pattern lists. -/
def isAllowedTitleChar (c : Char) : Bool :=
  isWordCh c || isJsWs c || c == '-' || c == ':' || c == '!' || c == '?' ||
  c == '&' || c == '.' || c == ','

/-- The title clean-up chain applied to one raw capture
(recommendations.js lines 450-456): trim, drop leading numbering, drop the
first parenthesised year then trim, drop a leading `Title:`/`Movie:` tag,
drop disallowed characters then trim. -/
def cleanTitle (cap : List Char) : String :=
  let t1 := jsTrimList cap
  let t2 := stripNumDot t1
  let t3 := jsTrimList (stripYearParenF (t2.length + 1) t2)
  let t4 := stripLeadTag t3
  ⟨jsTrimList (t4.filter isAllowedTitleChar)⟩

/-- Fold one pattern's captures into the running title list: clean each
capture, keep it when its length is plausible (strictly between 2 and 100)
and it is not already present (order preserved). -/
def addTitles (acc : List String) (caps : List (List Char)) : List String :=
  caps.foldl
    (fun ts cap =>
      let t := cleanTitle cap
      if 2 < t.length ∧ t.length < 100 ∧ ts.contains t = false then ts ++ [t]
      else ts)
    acc

/-- The pattern loop of `extractMovieTitlesFromText` (lines 438-465): the
six patterns in priority order, stopping as soon as five titles have been
collected after finishing a pattern. -/
def patternTitles (text : String) : List String :=
  let cs := text.data
  let fuel := cs.length + 1
  let t1 := addTitles [] (scanQuotedF fuel cs)
  let t2 := if 5 ≤ t1.length then t1 else addTitles t1 (scanNumberedF fuel cs)
  let t3 := if 5 ≤ t2.length then t2 else addTitles t2 (scanBulletF fuel cs)
  let t4 :=
    if 5 ≤ t3.length then t3
    else addTitles t3 (scanTaggedF "title:".data fuel cs)
  let t5 :=
    if 5 ≤ t4.length then t4
    else addTitles t4 (scanTaggedF "movie:".data fuel cs)
  if 5 ≤ t5.length then t5 else addTitles t5 (scanTitleYearF fuel none cs)

/-- Split on the separators `\n` or `\r\n` (a lone carriage return is not
a separator for this pattern and stays inside its line). -/
def splitNlF : Nat → List Char → List Char → List (List Char)
  | 0, acc, _ => [acc.reverse]
  | _, acc, [] => [acc.reverse]
  | fuel + 1, acc, '\r' :: '\n' :: rest => acc.reverse :: splitNlF fuel [] rest
  | fuel + 1, acc, '\n' :: rest => acc.reverse :: splitNlF fuel [] rest
  | fuel + 1, acc, c :: rest => splitNlF fuel (c :: acc) rest

/-- Strip one leading bullet marker and the whitespace after it. -/
def stripBulletLead (cs : List Char) : List Char :=
  match cs with
  | c :: rest =>
    if c == '-' || c == '*' || c == '•' then rest.dropWhile isJsWs else cs
  | [] => []

/-- The aggressive last-resort extraction (lines 468-477): the first five
non-empty lines, each stripped of leading numbering and bullet markers and
trimmed, kept when length-plausible (no de-duplication on this path). -/
def aggressiveTitles (cs : List Char) : List String :=
  let lines :=
    (splitNlF (cs.length + 1) [] cs).filter
      (fun l => (jsTrimList l).length ≠ 0)
  lines.foldl
    (fun ts line =>
      if 5 ≤ ts.length then ts
      else
        let cl := jsTrimList (stripBulletLead (stripNumDot line))
        if 2 < cl.length ∧ cl.length < 100 then ts ++ [(⟨cl⟩ : String)]
        else ts)
    []

/-- `extractMovieTitlesFromText` of recommendations.js lines 432-481: the
pattern loop, then (only when it produced nothing at all) the aggressive
line fallback, then `slice(0, 5)`. -/
def extractMovieTitlesFromText (text : String) : List String :=
  let ts := patternTitles text
  (if ts.isEmpty then aggressiveTitles text.data else ts).take 5

/-- Failure modes of `generateAIRecommendations` that concern the shape of
the model output (each is a distinct thrown message in the source). -/
inductive GenError where
  /-- `Could not extract movie titles from AI response` (line 352). -/
  | noTitles
  /-- `Invalid response format from AI` (line 367). -/
  | invalidFormat
  /-- `No movie recommendations returned from AI` (line 371). -/
  | noMovies
deriving DecidableEq

/-- One entry of the returned `movieTitles` list (lines 377-381): the raw
JSON properties with their `||` defaults applied (`year` has no default
and may be absent). -/
structure AICandidate where
  title : JValue
  year : Option JValue
  reason : JValue

/-- The per-movie mapping of lines 377-381. -/
def candOfMovie (m : JValue) : AICandidate :=
  { title := jsOrJ (getField m "title") (.str "Unknown Title")
    year := getField m "year"
    reason := jsOrJ (getField m "reason") (.str "Recommended by AI") }

/-- The validation and success mapping of lines 366-382 applied to a
parsed response object: a missing or non-array `movies` property fails
with `invalidFormat` (both disjuncts of the guard land on the same
throw), an empty array fails with `noMovies`, otherwise the explanation
(with its default) and the mapped candidate list are returned. -/
def validateAIResponse (v : JValue) :
    Except GenError (JValue × List AICandidate) :=
  match getField v "movies" with
  | some (.arr ms) =>
    if ms.isEmpty then .error .noMovies
    else
      .ok (jsOrJ (getField v "explanation") (.str "AI-generated recommendations"),
           ms.map candOfMovie)
  | _ => .error .invalidFormat

/-- The substitute response object built by the fallback branch of
lines 355-362 from the extracted titles. -/
def synthFromTitles (ts : List String) : JValue :=
  .obj
    [("explanation",
      .str "AI-generated recommendations based on your request."),
     ("movies",
      .arr (ts.map (fun t =>
        .obj [("title", .str t), ("year", .null),
              ("reason", .str "Recommended by AI")])))]

/-- The parse-and-validate stage of `generateAIRecommendations`
(lines 341-382) on the text content of the model completion.  `parse` is
the ambient `JSON.parse`, with `none` modelling a parse exception: on
success the parsed object is validated; on failure the fallback extractor
runs, an empty extraction throws `noTitles`, and otherwise the substitute
object flows into the same validation. -/
def generateAIRecommendations (parse : String → Option JValue)
    (content : String) : Except GenError (JValue × List AICandidate) :=
  match parse content with
  | some v => validateAIResponse v
  | none =>
    let titles := extractMovieTitlesFromText content
    if titles.isEmpty then .error .noTitles
    else validateAIResponse (synthFromTitles titles)

/-- One candidate handed to `getMovieDetailsForRecommendations`: by this
point the route treats `title` as a string (it is interpolated into the
SQL LIKE pattern and the OMDb query). -/
structure MovieTitleReq where
  title : String
  year : Option Int
  reason : String

/-- Outcome of the OMDb lookup for one candidate: a decoded body with
`Response === "True"`, a well-formed body reporting no match, or a thrown
transport error. -/
inductive FetchOutcome where
  | found (d : OmdbPayload)
  | notFound
  | transportFail

/-- Ambient dependencies of the reconciliation loop: whether
`OMDB_API_KEY` is configured, the provider lookup, and the current time
for `created_at` defaults. -/
structure RecEnv where
  hasOmdbKey : Bool
  provider : String → Option Int → FetchOutcome
  now : Nat

/-- The synthesized non-persisted item pushed on the three failure paths
of the reconciliation loop (lines 509-519, 545-556, 562-573). -/
structure PlaceholderItem where
  title : String
  year : Option Int
  ai_reason : String
  plot : String
  poster_url : Option String
  genre : String
  director : String
  actors : String
  imdb_rating : Option Rat
  err : Option String

/-- One element of the `detailedMovies` result list: a spread cache row, a
freshly fetched record, or a placeholder — each annotated with the
candidate's rationale. -/
inductive RecItem where
  | fromCache (row : MovieRow) (ai_reason : String)
  | fetched (m : FormattedMovie) (ai_reason : String)
  | placeholder (p : PlaceholderItem)

/-- The common shape of the three placeholder literals: candidate title
and year, the candidate's reason, a path-specific plot sentinel, null
poster and rating, `Unknown` descriptive fields, and a path-specific
error marker. -/
def mkPlaceholder (c : MovieTitleReq) (plot : String) (err : Option String) :
    PlaceholderItem :=
  { title := c.title, year := c.year, ai_reason := c.reason, plot := plot,
    poster_url := none, genre := "Unknown", director := "Unknown",
    actors := "Unknown", imdb_rating := none, err := err }

/-- The body of the per-candidate loop of
`getMovieDetailsForRecommendations` (lines 488-575): cache lookup by
case-insensitive title substring ordered by rating; on a miss, a missing
API key yields a placeholder without touching the provider; otherwise the
provider is consulted once — success formats, caches and returns the
record, a not-found body or a thrown fetch yields a placeholder.  The
whole body sits in a try/catch, so no branch escapes the loop.  Returns
the produced item and the (possibly updated) movie store. -/
def processCandidate (env : RecEnv) (store : List MovieRow)
    (c : MovieTitleReq) : RecItem × List MovieRow :=
  match bestByRating (store.filter (fun r => likeContains r.cols.title c.title)) with
  | some row => (.fromCache row c.reason, store)
  | none =>
    if env.hasOmdbKey = false then
      (.placeholder (mkPlaceholder c "Plot information unavailable" none), store)
    else
      match env.provider c.title c.year with
      | .found d =>
        let m := formatMovieData d
        (.fetched m c.reason, cacheMovie store (toCols m) env.now)
      | .notFound =>
        (.placeholder
           (mkPlaceholder c "Movie details not available" (some "Details not found")),
         store)
      | .transportFail =>
        (.placeholder
           (mkPlaceholder c "Error fetching movie details" (some "Fetch failed")),
         store)

/-- `getMovieDetailsForRecommendations` (lines 484-578): the candidate
loop threading the movie store, collecting one item per candidate. -/
def getMovieDetailsForRecommendations (env : RecEnv) :
    List MovieRow → List MovieTitleReq → List RecItem × List MovieRow
  | store, [] => ([], store)
  | store, c :: cs =>
    ((processCandidate env store c).1 ::
       (getMovieDetailsForRecommendations env (processCandidate env store c).2 cs).1,
     (getMovieDetailsForRecommendations env (processCandidate env store c).2 cs).2)

/-- The prompt normalisation feeding the cache key
(recommendations.js line 24): `prompt.toLowerCase().trim()`. -/
def normalizePrompt (p : String) : String := jsTrim ⟨lowerList p.data⟩

/-- The cache key of line 24:
`crypto.createHash(SHA).update(normalised).digest(HEX)`.  The digest is an
external pure library function and is taken as a parameter. -/
def promptHash (digest : String → String) (p : String) : String :=
  digest (normalizePrompt p)

/-- C7: a physically present row whose `expires_at` lies in the past is
invisible to `lookupRecCache`, because the SQL filter demands
`expires_at > NOW()`; with the UNIQUE hash constraint (here the
hypothesis that the expired row is the only row for the hash) the lookup
is a miss. -/
theorem lookupRecCache_expired_is_miss (store : List RecCacheRow)
    (h : String) (now : Nat) (r : RecCacheRow) (hmem : r ∈ store)
    (hhash : r.prompt_hash = h) (hexp : r.expires_at < now)
    (huniq : ∀ r2 ∈ store, r2.prompt_hash = h → r2 = r) :
    lookupRecCache store h now = none := by
  unfold lookupRecCache
  rw [List.find?_eq_none]
  intro x hx
  simp only [Bool.and_eq_true, beq_iff_eq, decide_eq_true_eq, not_and]
  intro hxh
  have hx_eq : x = r := huniq x hx hxh
  subst hx_eq
  omega

/-- An `ai_recommendations_cache` row that expired at time 5. -/
def expiredRow : RecCacheRow :=
  { prompt_hash := "he", user_prompt := "old prompt",
    recommendations := .rawNull, created_at := 0, expires_at := 5 }

/-- Witness for C7: at time 10 the lookup for the hash of the expired row
reports a miss although the row is still stored. -/
theorem lookupRecCache_expired_is_miss_witness :
    expiredRow.expires_at < 10 ∧ lookupRecCache [expiredRow] "he" 10 = none :=
  ⟨by decide,
   lookupRecCache_expired_is_miss [expiredRow] "he" 10 expiredRow
     (by simp) rfl (by decide)
     (by intro r2 hm _; simpa using hm)⟩

/-- C1 (amended): the cache write is a plain INSERT against the UNIQUE
`prompt_hash` key inside a try/catch.  When no row for the hash exists the
row is appended and the write succeeds; when any row for the hash exists
the INSERT fails with a duplicate-key error, the catch swallows it, and
the table is left unchanged (first write wins).  Either way the table ends
with exactly one row for a hash it already held at most once. -/
theorem putRecCache_insert_or_reject (store : List RecCacheRow)
    (h p : String) (pay : RawVal) (now : Nat) :
    (store.any (fun r => r.prompt_hash == h) = false →
       putRecCache store h p pay now =
         (store ++ [{ prompt_hash := h, user_prompt := p,
                      recommendations := pay, created_at := now,
                      expires_at := now + 86400 }], true))
    ∧ (store.any (fun r => r.prompt_hash == h) = true →
       putRecCache store h p pay now = (store, false))
    ∧ ((store.countP (fun r => r.prompt_hash == h) ≤ 1) →
       (putRecCache store h p pay now).1.countP (fun r => r.prompt_hash == h)
         = max (store.countP (fun r => r.prompt_hash == h)) 1) := by
  refine ⟨?_, ?_, ?_⟩
  · intro hany
    simp [putRecCache, insertRecCache, hany]
  · intro hany
    simp [putRecCache, insertRecCache, hany]
  · intro _
    cases hany : store.any (fun r => r.prompt_hash == h) with
    | false =>
      have h0 : store.countP (fun r => r.prompt_hash == h) = 0 := by
        rw [List.countP_eq_zero]
        intro a ha
        rw [← Bool.not_eq_true, List.any_eq_true] at hany
        push_neg at hany
        simpa using hany a ha
      simp [putRecCache, insertRecCache, hany, List.countP_append, h0]
    | true =>
      have h1 : 0 < store.countP (fun r => r.prompt_hash == h) := by
        rw [List.countP_pos_iff]
        rw [List.any_eq_true] at hany
        exact hany
      have hput : putRecCache store h p pay now = (store, false) := by
        simp [putRecCache, insertRecCache, hany]
      rw [hput]
      exact (Nat.max_eq_left h1).symm

/-- The row left behind by a first successful cache write for hash `h1`. -/
def rowA : RecCacheRow :=
  { prompt_hash := "h1", user_prompt := "dark thriller",
    recommendations := .rawString "A", created_at := 0, expires_at := 86400 }

/-- Witness for C1: a write into an empty table succeeds and appends the
row; a second write for the same hash is rejected and the table keeps the
first row. -/
theorem putRecCache_insert_or_reject_witness :
    (([] : List RecCacheRow).any (fun r => r.prompt_hash == "h1") = false
      ∧ putRecCache [] "h1" "dark thriller" (.rawString "A") 0 = ([rowA], true))
    ∧ ([rowA].any (fun r => r.prompt_hash == "h1") = true
      ∧ putRecCache [rowA] "h1" "dark thriller" (.rawString "B") 9 = ([rowA], false)) :=
  ⟨⟨rfl,
    (putRecCache_insert_or_reject [] "h1" "dark thriller" (.rawString "A") 0).1 rfl⟩,
   ⟨rfl,
    (putRecCache_insert_or_reject [rowA] "h1" "dark thriller" (.rawString "B") 9).2.1 rfl⟩⟩

/-- Projection of the stored payload used to observe which write survived. -/
def rawStringOf : RawVal → Option String
  | .rawString s => some s
  | _ => none

/-- Counterexample for C1 as claimed: a second `put` for a hash that
already has a row does NOT overwrite it.  The INSERT hits the duplicate
key (flag `false`), and the surviving payload is still the first write's
`"A"`, not the second write's `"B"` — first-write-wins, while the claim
demands last-write-wins without a duplicate-key failure. -/
theorem putRecCache_duplicate_counterexample :
    (putRecCache [rowA] "h1" "dark thriller" (.rawString "B") 9).2 = false
    ∧ (putRecCache [rowA] "h1" "dark thriller" (.rawString "B") 9).1.map
        (fun r => rawStringOf r.recommendations) = [some "A"]
    ∧ some "A" ≠ some "B" :=
  ⟨rfl, rfl, by decide⟩

/-- C2 (amended): when a live row exists for the hash, the read path
always answers from cache — with the defensively normalised payload — and
never falls back to regeneration; an irrecoverable payload (a string or
Buffer that fails `JSON.parse`, or SQL NULL) normalises to the empty
recommendations list, so the route returns a cache-sourced response with
`recommendations: []` rather than treating the corruption as a miss.  The
read is a total function: no branch raises. -/
theorem readRecCache_corrupt_not_miss (parse : String → Option JValue)
    (store : List RecCacheRow) (h : String) (now : Nat) (r : RecCacheRow) :
    (lookupRecCache store h now = some r →
       readRecCache parse store h now
         = some (normalizeCachedPayload parse r.recommendations))
    ∧ (∀ s, parse s = none →
         normalizeCachedPayload parse (.rawString s) = [])
    ∧ (∀ s, parse s = none →
         normalizeCachedPayload parse (.rawBuffer s) = [])
    ∧ normalizeCachedPayload parse .rawNull = [] := by
  refine ⟨?_, ?_, ?_, ?_⟩
  · intro hl
    rw [readRecCache, hl]
    rfl
  · intro s hs
    simp [normalizeCachedPayload, hs]
  · intro s hs
    by_cases hobj : s = "[object Object]" <;>
      simp [normalizeCachedPayload, hs, hobj]
  · rfl

/-- A model of `JSON.parse` on inputs where it throws (consistent with the
actual `JSON.parse` on every string it is applied to below, which are not
valid JSON). -/
def parseNone : String → Option JValue := fun _ => none

/-- A live cache row whose stored payload is the irrecoverable garbage
string produced by a driver coercion, `"[object Object]"`. -/
def corruptRow : RecCacheRow :=
  { prompt_hash := "hc", user_prompt := "dark thriller",
    recommendations := .rawString "[object Object]", created_at := 0,
    expires_at := 100 }

/-- Witness for C2 (amended): the live corrupt row is found, and the read
answers from cache with the normalised (empty) payload. -/
theorem readRecCache_corrupt_not_miss_witness :
    (lookupRecCache [corruptRow] "hc" 10 = some corruptRow
      ∧ readRecCache parseNone [corruptRow] "hc" 10
          = some (normalizeCachedPayload parseNone corruptRow.recommendations))
    ∧ (parseNone "[object Object]" = none
      ∧ normalizeCachedPayload parseNone (.rawString "[object Object]") = []) :=
  ⟨⟨rfl,
    (readRecCache_corrupt_not_miss parseNone [corruptRow] "hc" 10 corruptRow).1 rfl⟩,
   ⟨rfl,
    (readRecCache_corrupt_not_miss parseNone [corruptRow] "hc" 10 corruptRow).2.1
      "[object Object]" rfl⟩⟩

/-- Counterexample for C2 as claimed: with a live row whose payload is the
unparsable string `"[object Object]"`, the read does NOT report a miss
(which would send the caller to regeneration); it returns a cache hit
carrying an empty recommendations list. -/
theorem readRecCache_garbage_counterexample :
    readRecCache parseNone [corruptRow] "hc" 10 = some []
    ∧ (some ([] : List JValue) ≠ (none : Option (List JValue))) :=
  ⟨rfl, by simp⟩

/-- C8: the cache key is a digest of `prompt.toLowerCase().trim()`; any
two prompts equal after case-folding and trimming produce the same hash,
for every (pure) digest function. -/
theorem promptHash_normalized_eq (digest : String → String) (p1 p2 : String)
    (h : normalizePrompt p1 = normalizePrompt p2) :
    promptHash digest p1 = promptHash digest p2 := by
  unfold promptHash
  rw [h]

/-- Witness for C8 at two concretely distinct prompts that agree after
case-folding and trimming. -/
theorem promptHash_normalized_eq_witness :
    normalizePrompt "  DARK Thriller  " = normalizePrompt "dark thriller"
    ∧ promptHash (fun s => s) "  DARK Thriller  "
        = promptHash (fun s => s) "dark thriller" :=
  ⟨rfl, promptHash_normalized_eq (fun s => s) "  DARK Thriller  " "dark thriller" rfl⟩

/-- C5 (amended): `cacheMovie` followed by `findById` on the same
`imdb_id` returns a row whose twelve written columns equal the upserted
ones; the `created_at` timestamp, however, is fixed at first insert — the
`ON DUPLICATE KEY UPDATE` list omits it, so an overwrite keeps the
original row's timestamp instead of the current write time. -/
theorem cacheMovie_findById (store : List MovieRow) (m : MovieCols)
    (now : Nat) :
    findById (cacheMovie store m now) m.imdb_id =
      some { cols := m,
             created_at :=
               (findById store m.imdb_id).elim now (fun r0 => r0.created_at) } := by
  induction store with
  | nil => simp [cacheMovie, findById]
  | cons r rest ih =>
    cases hr : (r.cols.imdb_id == m.imdb_id) with
    | true =>
      have hr' : r.cols.imdb_id = m.imdb_id := by simpa using hr
      have hany : (r :: rest).any (fun x => x.cols.imdb_id == m.imdb_id) = true := by
        simp [List.any_cons, hr]
      simp [cacheMovie, hany, findById, List.find?_cons, hr']
    | false =>
      have hr' : ¬ r.cols.imdb_id = m.imdb_id := by simpa using hr
      have hstep : cacheMovie (r :: rest) m now = r :: cacheMovie rest m now := by
        cases hany : rest.any (fun x => x.cols.imdb_id == m.imdb_id) <;>
          simp [cacheMovie, List.any_cons, hr, hany, hr']
      have hfr : findById (r :: rest) m.imdb_id = findById rest m.imdb_id := by
        simp [findById, List.find?_cons, hr]
      have hlhs : findById (r :: cacheMovie rest m now) m.imdb_id
          = findById (cacheMovie rest m now) m.imdb_id := by
        simp [findById, List.find?_cons, hr]
      rw [hstep, hlhs, ih, hfr]

/-- A concrete column tuple for the round-trip counterexample. -/
def colsA : MovieCols :=
  { imdb_id := "tt1", title := "Inception", year := some 2010, genre := none,
    director := none, actors := none, plot := none, poster_url := none,
    imdb_rating := none, runtime := none, language := none, country := none }

/-- Counterexample for C5 as claimed: upsert at time 1, overwrite at
time 2 — the stored row still carries `created_at = 1`, so the timestamp
is NOT set on every write as the claim demands. -/
theorem cacheMovie_overwrite_created_at_counterexample :
    findById (cacheMovie (cacheMovie [] colsA 1) colsA 2) "tt1"
      = some { cols := colsA, created_at := 1 }
    ∧ (1 : Nat) ≠ 2 :=
  ⟨rfl, by decide⟩

/-- C6 (amended): the retry discipline — up to 3 attempts with backoff of
500 ms times the attempt number, and no retry after any well-formed
response body (OMDb reports "not found" inside a 200 body, so it returns
on the first attempt) — holds for `fetchOmdb` and therefore for the
movies-router paths that call it; but the OMDb call made inside the
recommendations route is a bare single-attempt `axios.get`, with no retry
and no backoff, for every outcome. -/
theorem fetchOmdb_retry_spec :
    (∀ (oracle : Nat → TransportOutcome) (d : OmdbPayload),
       oracle 1 = .ok d →
       fetchOmdb oracle 3 = { attempts := 1, delays := [], result := .ok d })
    ∧ (∀ oracle : Nat → TransportOutcome,
       (∀ k, oracle k = .fail) →
       fetchOmdb oracle 3
         = { attempts := 3, delays := [500, 1000], result := .error () })
    ∧ (∀ (oracle : Nat → TransportOutcome) (d : OmdbPayload),
       (oracle 1 = .ok d →
          omdbDirectFetch oracle = { attempts := 1, delays := [], result := .ok d })
       ∧ (oracle 1 = .fail →
          omdbDirectFetch oracle
            = { attempts := 1, delays := [], result := .error () })) := by
  refine ⟨?_, ?_, ?_⟩
  · intro oracle d h1
    simp [fetchOmdb, fetchOmdbGo, h1]
  · intro oracle hall
    simp [fetchOmdb, fetchOmdbGo, hall 1, hall 2, hall 3]
  · intro oracle d
    constructor
    · intro h1
      simp [omdbDirectFetch, h1]
    · intro h1
      simp [omdbDirectFetch, h1]

/-- A provider that fails every attempt at the transport level. -/
def alwaysFailOracle : Nat → TransportOutcome := fun _ => .fail

/-- Counterexample for C6 as claimed: on a transport outage the
recommendations-route call gives up after exactly 1 attempt with no
backoff, while the claimed uniform discipline requires 3 attempts with
delays [500, 1000] — which is what `fetchOmdb` itself does on the same
outage.  The retry discipline is therefore not applied uniformly to every
provider call path. -/
theorem omdbDirectFetch_no_retry_counterexample :
    omdbDirectFetch alwaysFailOracle
      = { attempts := 1, delays := [], result := .error () }
    ∧ fetchOmdb alwaysFailOracle 3
      = { attempts := 3, delays := [500, 1000], result := .error () }
    ∧ (1 : Nat) ≠ 3 :=
  ⟨rfl, rfl, by decide⟩

/-- A concrete well-formed provider body (fields are immaterial). -/
def payload0 : OmdbPayload :=
  { imdbID := "tt0000001", Title := "T", Year := "2000", Genre := none,
    Director := none, Actors := none, Plot := none, Poster := "N/A",
    imdbRating := "7.0", Runtime := none, Language := none, Country := none,
    Rated := none, Released := none, Awards := none }

/-- A provider that answers on the first attempt. -/
def okOracle : Nat → TransportOutcome := fun _ => .ok payload0

/-- Witness for C6 (amended) at concrete oracles: a first-attempt
response returns without retry; a total outage produces 3 attempts with
delays [500, 1000]; the direct path always makes a single attempt. -/
theorem fetchOmdb_retry_spec_witness :
    (okOracle 1 = .ok payload0
      ∧ fetchOmdb okOracle 3 = { attempts := 1, delays := [], result := .ok payload0 })
    ∧ ((∀ k, alwaysFailOracle k = .fail)
      ∧ fetchOmdb alwaysFailOracle 3
          = { attempts := 3, delays := [500, 1000], result := .error () })
    ∧ omdbDirectFetch okOracle
        = { attempts := 1, delays := [], result := .ok payload0 } :=
  ⟨⟨rfl, fetchOmdb_retry_spec.1 okOracle payload0 rfl⟩,
   ⟨fun _ => rfl, fetchOmdb_retry_spec.2.1 alwaysFailOracle (fun _ => rfl)⟩,
   (fetchOmdb_retry_spec.2.2 okOracle payload0).1 rfl⟩

/-- C10: both `formatMovieData` variants filter the parsed `Year` and
`imdbRating` through JavaScript truthiness (`parseInt(...) || null`,
`parseFloat(...) || null`), so a string parsing to the number 0 is stored
as absent, and the stored year and rating are never the number 0. -/
theorem formatMovieData_zero_filtered (d : OmdbPayload) :
    (jsParseInt d.Year = some 0 → (formatMovieData d).year = none)
    ∧ (jsParseFloat d.imdbRating = some 0 → (formatMovieData d).imdb_rating = none)
    ∧ (formatMovieData d).year ≠ some 0
    ∧ (formatMovieData d).imdb_rating ≠ some 0
    ∧ (jsParseInt d.Year = some 0 → (formatMovieDataMovies d).year = none)
    ∧ (jsParseFloat d.imdbRating = some 0 →
        (formatMovieDataMovies d).imdb_rating = none)
    ∧ (formatMovieDataMovies d).year ≠ some 0
    ∧ (formatMovieDataMovies d).imdb_rating ≠ some 0 := by
  have hy : ∀ o : Option Int, intOrNull o ≠ some 0 := by
    intro o
    cases o with
    | none => simp [intOrNull]
    | some n => by_cases hn : n = 0 <;> simp [intOrNull, hn]
  have hq : ∀ o : Option Rat, ratOrNull o ≠ some 0 := by
    intro o
    cases o with
    | none => simp [ratOrNull]
    | some q => by_cases h0 : q = 0 <;> simp [ratOrNull, h0]
  refine ⟨?_, ?_, ?_, ?_, ?_, ?_, ?_, ?_⟩
  · intro h0; simp [formatMovieData, h0, intOrNull]
  · intro h0; simp [formatMovieData, h0, ratOrNull]
  · simpa [formatMovieData] using hy (jsParseInt d.Year)
  · simpa [formatMovieData] using hq (jsParseFloat d.imdbRating)
  · intro h0; simp [formatMovieDataMovies, h0, intOrNull]
  · intro h0; simp [formatMovieDataMovies, h0, ratOrNull]
  · simpa [formatMovieDataMovies] using hy (jsParseInt d.Year)
  · simpa [formatMovieDataMovies] using hq (jsParseFloat d.imdbRating)

/-- A provider payload whose year and rating strings both parse to the
number 0. -/
def zeroPayload : OmdbPayload :=
  { imdbID := "tt0000002", Title := "Zero", Year := "0", Genre := none,
    Director := none, Actors := none, Plot := none, Poster := "N/A",
    imdbRating := "0.0", Runtime := none, Language := none, Country := none,
    Rated := none, Released := none, Awards := none }

/-- Witness for C10: on the payload with `Year = "0"` and
`imdbRating = "0.0"` the normalised record stores absent year and rating. -/
theorem formatMovieData_zero_filtered_witness :
    (jsParseInt zeroPayload.Year = some 0
      ∧ (formatMovieData zeroPayload).year = none)
    ∧ (jsParseFloat zeroPayload.imdbRating = some 0
      ∧ (formatMovieData zeroPayload).imdb_rating = none) := by
  have hint : jsParseInt zeroPayload.Year = some 0 := by decide
  have hfloat : jsParseFloat zeroPayload.imdbRating = some 0 := by
    have h : jsParseFloat "0.0"
        = some ((digitsToNat ['0'] : Rat)
            + (digitsToNat ['0'] : Rat) / (10 : Rat) ^ (1 : Nat)) := rfl
    rw [show zeroPayload.imdbRating = "0.0" from rfl, h,
        show digitsToNat ['0'] = 0 from rfl]
    norm_num
  exact ⟨⟨hint, (formatMovieData_zero_filtered zeroPayload).1 hint⟩,
         ⟨hfloat, (formatMovieData_zero_filtered zeroPayload).2.1 hfloat⟩⟩

/-- The validation stage never produces the extraction-failure error: its
only failure modes are `invalidFormat` and `noMovies`. -/
theorem validateAIResponse_ne_noTitles (v : JValue) :
    validateAIResponse v ≠ Except.error GenError.noTitles := by
  unfold validateAIResponse
  split
  · split <;> simp
  · simp

/-- The substitute object built from a non-empty title list always passes
validation. -/
theorem validateAIResponse_synth_ok (t : String) (ts : List String) :
    ∃ r, validateAIResponse (synthFromTitles (t :: ts)) = Except.ok r :=
  ⟨_, rfl⟩

/-- C3 (amended): the extraction-failure error (`noTitles`, the only path
the spec calls `MalformedAIResponse` that consults the fallback) occurs
exactly when the strict parse fails and the fallback extraction yields
zero candidates; but the other two malformed-response failures
(`invalidFormat`, `noMovies`) occur exactly when the strict parse
SUCCEEDS and the parsed object fails validation — on those paths the
fallback extractor is never consulted, so a malformed-response failure
can be produced even on content from which the extractor would yield
candidates. -/
theorem generateAIRecommendations_error_cases
    (parse : String → Option JValue) (content : String) :
    (generateAIRecommendations parse content = .error .noTitles ↔
       parse content = none ∧ extractMovieTitlesFromText content = [])
    ∧ (∀ e : GenError, e ≠ .noTitles →
       (generateAIRecommendations parse content = .error e ↔
          ∃ v, parse content = some v ∧ validateAIResponse v = .error e)) := by
  cases hp : parse content with
  | some v =>
    have hgen : generateAIRecommendations parse content = validateAIResponse v := by
      simp [generateAIRecommendations, hp]
    constructor
    · rw [hgen]
      constructor
      · intro h
        exact absurd h (validateAIResponse_ne_noTitles v)
      · rintro ⟨hv, -⟩
        exact Option.noConfusion hv
    · intro e _
      rw [hgen]
      constructor
      · intro h
        exact ⟨v, rfl, h⟩
      · rintro ⟨v', hv', h⟩
        obtain rfl : v = v' := Option.some.inj hv'
        exact h
  | none =>
    cases ht : extractMovieTitlesFromText content with
    | nil =>
      have hgen : generateAIRecommendations parse content = .error .noTitles := by
        simp [generateAIRecommendations, hp, ht]
      constructor
      · rw [hgen]
        simp
      · intro e he
        rw [hgen]
        constructor
        · intro h
          injection h with h2
          exact absurd h2.symm he
        · rintro ⟨v, hv, -⟩
          exact Option.noConfusion hv
    | cons t ts =>
      obtain ⟨r, hr⟩ := validateAIResponse_synth_ok t ts
      have hgen : generateAIRecommendations parse content = .ok r := by
        simp [generateAIRecommendations, hp, ht, hr]
      constructor
      · rw [hgen]
        constructor
        · intro h
          exact Except.noConfusion h
        · rintro ⟨-, habs⟩
          exact List.noConfusion habs
      · intro e _
        rw [hgen]
        constructor
        · intro h
          exact Except.noConfusion h
        · rintro ⟨v, hv, -⟩
          exact Option.noConfusion hv

/-- Witness for C3 (amended): at a parse function that succeeds, a
validation failure is characterised by the second component of the
theorem. -/
theorem generateAIRecommendations_error_cases_witness :
    (GenError.invalidFormat ≠ GenError.noTitles)
    ∧ (generateAIRecommendations (fun _ => some (.obj [])) "x"
          = .error .invalidFormat ↔
        ∃ v, (fun _ => some (.obj [])) "x" = some v
          ∧ validateAIResponse v = .error .invalidFormat) :=
  ⟨by decide,
   (generateAIRecommendations_error_cases (fun _ => some (.obj [])) "x").2
     GenError.invalidFormat (by decide)⟩

/-- A model of `JSON.parse` on the single content below, consistent with
the actual `JSON.parse`: the text is valid JSON denoting an object whose
`movies` property is an empty array. -/
def parseMoviesEmptyStub : String → Option JValue :=
  fun _ => some (.obj [("movies", .arr [])])

/-- The model completion text: valid JSON with an empty `movies` array. -/
def jsonMoviesEmpty : String := "\x7b\"movies\": []\x7d"

/-- Counterexample for C3 as claimed: on content whose strict JSON parse
SUCCEEDS (so, per the claim, no malformed-response failure may occur) and
from which the fallback extractor would yield the non-empty candidate
list `["movies"]` (so the claim's second clause also forbids a failure),
the code still fails with a malformed-response error, because the
empty-`movies` validation throw bypasses the fallback extractor. -/
theorem generateAIRecommendations_counterexample :
    generateAIRecommendations parseMoviesEmptyStub jsonMoviesEmpty
      = .error .noMovies
    ∧ (parseMoviesEmptyStub jsonMoviesEmpty).isSome = true
    ∧ extractMovieTitlesFromText jsonMoviesEmpty = ["movies"] :=
  ⟨rfl, rfl, by decide⟩

/-- The reconciliation loop produces exactly one result item per
candidate, for every starting store: no candidate aborts the others. -/
theorem getMovieDetails_length (env : RecEnv) :
    ∀ (cands : List MovieTitleReq) (store : List MovieRow),
      ((getMovieDetailsForRecommendations env store cands).1).length
        = cands.length := by
  intro cands
  induction cands with
  | nil => intro store; rfl
  | cons c cs ih =>
    intro store
    simp [getMovieDetailsForRecommendations, ih]

/-- C4: for a candidate with no cache match whose provider resolution is
impossible (key absent) or unsuccessful (not-found body, or a thrown
fetch), the loop body returns a placeholder carrying the candidate's
rationale, title and year with the sentinel unavailable values, leaves
the movie store untouched, and — the loop body being total — the failure
aborts neither the call nor the remaining candidates (one item per
candidate, always). -/
theorem getMovieDetails_placeholder_frame (env : RecEnv)
    (store : List MovieRow) (c : MovieTitleReq)
    (hmiss : bestByRating
        (store.filter (fun r => likeContains r.cols.title c.title)) = none)
    (hfail : env.hasOmdbKey = false
        ∨ env.provider c.title c.year = .notFound
        ∨ env.provider c.title c.year = .transportFail) :
    (∃ p : PlaceholderItem,
       processCandidate env store c = (.placeholder p, store)
       ∧ p.ai_reason = c.reason ∧ p.title = c.title ∧ p.year = c.year
       ∧ p.genre = "Unknown" ∧ p.director = "Unknown" ∧ p.actors = "Unknown"
       ∧ p.poster_url = none ∧ p.imdb_rating = none)
    ∧ ∀ cands : List MovieTitleReq,
        ((getMovieDetailsForRecommendations env store cands).1).length
          = cands.length := by
  constructor
  · cases hkey : env.hasOmdbKey with
    | false =>
      refine ⟨mkPlaceholder c "Plot information unavailable" none,
        ?_, rfl, rfl, rfl, rfl, rfl, rfl, rfl, rfl⟩
      simp [processCandidate, hmiss, hkey]
    | true =>
      rcases hfail with hk | hnf | htf
      · rw [hkey] at hk
        exact Bool.noConfusion hk
      · refine ⟨mkPlaceholder c "Movie details not available"
            (some "Details not found"), ?_, rfl, rfl, rfl, rfl, rfl, rfl, rfl, rfl⟩
        simp [processCandidate, hmiss, hkey, hnf]
      · refine ⟨mkPlaceholder c "Error fetching movie details"
            (some "Fetch failed"), ?_, rfl, rfl, rfl, rfl, rfl, rfl, rfl, rfl⟩
        simp [processCandidate, hmiss, hkey, htf]
  · intro cands
    exact getMovieDetails_length env cands store

/-- A dependency bundle with no configured OMDb key. -/
def c4env : RecEnv :=
  { hasOmdbKey := false, provider := fun _ _ => .notFound, now := 0 }

/-- A candidate the empty cache cannot match. -/
def c4cand : MovieTitleReq :=
  { title := "Nonexistent Movie", year := none, reason := "because you asked" }

/-- Witness for C4: with an empty cache and no provider key, the
candidate yields a placeholder with its rationale and the sentinels, the
store stays empty, and every candidate list is processed in full. -/
theorem getMovieDetails_placeholder_frame_witness :
    (bestByRating (([] : List MovieRow).filter
        (fun r => likeContains r.cols.title c4cand.title)) = none)
    ∧ ((∃ p : PlaceholderItem,
         processCandidate c4env [] c4cand = (.placeholder p, [])
         ∧ p.ai_reason = c4cand.reason ∧ p.title = c4cand.title
         ∧ p.year = c4cand.year ∧ p.genre = "Unknown"
         ∧ p.director = "Unknown" ∧ p.actors = "Unknown"
         ∧ p.poster_url = none ∧ p.imdb_rating = none)
       ∧ ∀ cands : List MovieTitleReq,
           ((getMovieDetailsForRecommendations c4env [] cands).1).length
             = cands.length) :=
  ⟨rfl, getMovieDetails_placeholder_frame c4env [] c4cand rfl (Or.inl rfl)⟩

/-- The non-JSON model reply of the C9 scenario. -/
def picksText : String :=
  "Here are some picks: \"Inception\" (2010), \"Arrival\" (2016)"

/-- C9: on the scenario text, the quoted-title pattern already yields
exactly `["Inception", "Arrival"]` with the year annotations outside the
quotes never captured, the remaining patterns match nothing, and — since
the pattern loop produced a non-empty list — the aggressive
first-five-lines fallback is not consulted. -/
theorem extractMovieTitles_picks :
    patternTitles picksText = ["Inception", "Arrival"]
    ∧ extractMovieTitlesFromText picksText = ["Inception", "Arrival"] := by
  constructor <;> decide
